import Mathlib

/-
Verification of the Tech2-Magic-Operator protocol client.

Shallow embedding of the repository's Python sources:
  * archive/tech2_download.py   (Tech2Communicator: session state machine,
    calculate_key, frame construction, send_and_receive retry loop)
  * trionic8_calculator.py      (TRIONIC8_Algorithm: four-step seed->key variant)
  * import_serial.py            (download_tech2_data chunk reassembly)
  * src/tech2_direct.py         (slice-based chunk reassembly)
  * process_bin.py              (get_seed_only)
  * tech2_communication.py      (send_security_key)

Machine integers are modelled as Nat (or Int where Python arithmetic can go
negative) with explicit masking, mirroring the sources' `& 0xFFFF` / `& 0xFF`
operations.  Python exceptions are modelled with explicit error values.
-/

/-! ## trionic8_calculator.py -/

namespace Trionic8

/-- From `rotate_left(val, bits)`: 16-bit rotate left, `bits` reduced mod 16. -/
def rotate_left (val bits : Nat) : Nat :=
  let bits := bits % 16
  ((val <<< bits) ||| (val >>> (16 - bits))) &&& 0xFFFF

/-- From `rotate_right(val, bits)`: 16-bit rotate right, `bits` reduced mod 16. -/
def rotate_right (val bits : Nat) : Nat :=
  let bits := bits % 16
  ((val >>> bits) ||| (val <<< (16 - bits))) &&& 0xFFFF

/-- From `swap_bytes_and_add(val, add_value)`: swap high/low bytes, add, mask. -/
def swap_bytes_and_add (val addValue : Nat) : Nat :=
  let swapped := ((val >>> 8) &&& 0xFF) ||| ((val &&& 0xFF) <<< 8)
  (swapped + addValue) &&& 0xFFFF

/-- From `subtract(val, value)`: `(val - value) & 0xFFFF` on Python ints, where
the difference may be negative; Python's `&` on a negative int is arithmetic
mod 2^16, modelled with `Int.emod`. -/
def subtract (val value : Nat) : Nat :=
  (((val : Int) - (value : Int)).emod 65536).toNat

/-- From `TRIONIC8_Algorithm.compute(seed)`.  The seed is a Python int (the
`isinstance` check restricts to int, embedded here by typing); values outside
`[0, 0xFFFF]` raise ValueError, modelled as `none`.  The `self.steps` table is
applied in order: ror 7, rol 10, swap-bytes-and-add 0xF8DA, subtract 0x3F52. -/
def compute (seed : Int) : Option Nat :=
  if seed < 0 ∨ 0xFFFF < seed then none
  else
    let key := seed.toNat
    let key := rotate_right key 7
    let key := rotate_left key 10
    let key := swap_bytes_and_add key 0xF8DA
    some (subtract key 0x3F52)

end Trionic8

/-! ## archive/tech2_download.py : calculate_key -/

namespace TechDownload

/-- From `Tech2Communicator.calculate_key(seed, level)`: base rotate/add
transform followed by a level-specific pipeline (0xFD, 0xFB, or nothing). -/
def calculate_key (seed level : Nat) : Nat :=
  let key := ((seed >>> 5) ||| (seed <<< 11)) &&& 0xFFFF
  let key := (key + 0xB988) &&& 0xFFFF
  if level = 0xFD then
    let key := (key / 3) &&& 0xFFFF
    let key := key ^^^ 0x8749
    let key := (key + 0x0ACF) &&& 0xFFFF
    key ^^^ 0x81BF
  else if level = 0xFB then
    let key := key ^^^ 0x8749
    let key := (key + 0x06D3) &&& 0xFFFF
    key ^^^ 0xCFDF
  else
    key

end TechDownload

/-! ## Claim-side formulas for the level-aware derivation (C1)

These three definitions follow the words of the claim, to be compared with
`TechDownload.calculate_key` translated from the source. -/

/-- Claim formula: `base = ((((seed >> 5) | (seed << 11)) & 0xFFFF) + 0xB988) & 0xFFFF`. -/
def claim_base (seed : Nat) : Nat :=
  ((((seed >>> 5) ||| (seed <<< 11)) &&& 0xFFFF) + 0xB988) &&& 0xFFFF

/-- Claim formula for level 0xFB: `((((base XOR 0x8749) + 0x06D3) & 0xFFFF) XOR 0xCFDF)`. -/
def claim_key_fb (seed : Nat) : Nat :=
  (((claim_base seed ^^^ 0x8749) + 0x06D3) &&& 0xFFFF) ^^^ 0xCFDF

/-- Claim formula for level 0xFD:
`((((((base / 3) & 0xFFFF) XOR 0x8749) + 0x0ACF) & 0xFFFF) XOR 0x81BF)`
with truncating unsigned division. -/
def claim_key_fd (seed : Nat) : Nat :=
  (((((claim_base seed / 3) &&& 0xFFFF) ^^^ 0x8749) + 0x0ACF) &&& 0xFFFF) ^^^ 0x81BF

/-! ## FrameCodec: the length-prefixed framing used by every command -/

namespace FrameCodec

/-- Receive-side completeness rule used by `send_and_receive` and
`send_raw_command`: given at least one received byte, a frame is complete once
`len(buffer) >= buffer[0]` (the first byte declares the total frame length). -/
def IsComplete (buffer : List Nat) : Prop :=
  1 ≤ buffer.length ∧ buffer.getD 0 0 ≤ buffer.length

instance (buffer : List Nat) : Decidable (IsComplete buffer) :=
  inferInstanceAs (Decidable (_ ∧ _))

/-- The frame construction pattern of `Tech2Communicator` (see
`write_data_by_identifier`, `execute_routine`, ...): a total-length byte
`4 + len(payload)`, the target bytes `0x7E 0x00`, a data-length byte, then the
service payload.  `none` models the `ValueError` that `bytearray` raises when
the computed length byte does not fit in `range(256)`. -/
def Encode (payload : List Nat) : Option (List Nat) :=
  if payload.length + 4 ≤ 0xFF ∧ (∀ b ∈ payload, b ≤ 0xFF) then
    some ((payload.length + 4) :: 0x7E :: 0x00 :: payload.length :: payload)
  else none

end FrameCodec

/-! ## archive/tech2_download.py : state machine and services -/

namespace TechDownload

/-- The `DiagnosticState` enumeration (`Enum` with `auto()` ordinals 1..5). -/
inductive DiagnosticState where
  | DISCONNECTED
  | CONNECTED
  | SESSION_STARTED
  | SECURITY_REQUESTED
  | SECURITY_GRANTED
deriving DecidableEq

/-- Python exception classes raised by the embedded code paths. -/
inductive PyError where
  | typeError
  | valueError
  | runtimeError
deriving DecidableEq

/-- `DiagnosticState` derives from plain `Enum`, whose members are not ordered
in Python 3: every `<` / `>=` comparison between two members raises
`TypeError` (an `IntEnum` would have been needed for ordinal comparison).
This models `self.state < DiagnosticState...` as it actually behaves. -/
def enum_lt (_a _b : DiagnosticState) : Except PyError Bool :=
  .error .typeError

/-- Outcome of one service call: the returned value or the Python exception
that escaped, the `self.state` field after the call, the commands submitted to
the channel (empty list = no channel I/O), and the NRC byte passed to
`translate_error_code` when the call surfaced a translated error (`none` =
`translate_error_code` was never invoked). -/
structure CallResult (α : Type) where
  result : Except PyError α
  state : DiagnosticState
  sent : List (List Nat)
  translated : Option Nat

/-- From `write_data_by_identifier`'s command construction: frame bytes
`[data_length+4, 0x7E, 0x00, data_length, 0x2E, idHi, idLo] + data` with
`data_length = 3 + len(data)`; `none` models the `bytearray` ValueError when
the length byte exceeds 0xFF. -/
def write_data_command (identifier : Nat) (data : List Nat) : Option (List Nat) :=
  let data_length := 3 + data.length
  if data_length + 4 ≤ 0xFF ∧ (∀ b ∈ data, b ≤ 0xFF) then
    some ([data_length + 4, 0x7E, 0x00, data_length, 0x2E,
           (identifier >>> 8) &&& 0xFF, identifier &&& 0xFF] ++ data)
  else none

/-- From `execute_routine`'s command construction, `data_length = 4 + len(params)`. -/
def routine_command (routine_id : Nat) (params : List Nat) : Option (List Nat) :=
  let data_length := 4 + params.length
  if data_length + 4 ≤ 0xFF ∧ (∀ b ∈ params, b ≤ 0xFF) then
    some ([data_length + 4, 0x7E, 0x00, data_length, 0x31, 0x01,
           (routine_id >>> 8) &&& 0xFF, routine_id &&& 0xFF] ++ params)
  else none

/-- One polling window of `send_and_receive`: `chunks` are the byte groups the
serial port delivers, in order, before the per-attempt deadline; the loop
accumulates them into `response` and stops as soon as the completeness rule
`len(response) >= response[0]` holds; `none` models the timeout (the deadline
passes with no complete frame). -/
def recv_loop (chunks : List (List Nat)) (response : List Nat) : Option (List Nat) :=
  match chunks with
  | [] => none
  | c :: rest =>
    let response := response ++ c
    if 1 ≤ response.length ∧ response.getD 0 0 ≤ response.length then some response
    else recv_loop rest response

/-- From `send_and_receive(command, timeout, retries, expect_response=True)`:
one entry of `attempts` per retry (`attempts.length` = the `retries` budget,
default 3).  Each iteration writes the command once and then polls; on a
complete frame the response is returned, otherwise the next attempt runs.
Returns the response (`none` = timeout after every retry) together with the
number of times the command was written to the channel. -/
def send_and_receive (attempts : List (List (List Nat))) : Option (List Nat) × Nat :=
  match attempts with
  | [] => (none, 0)
  | a :: rest =>
    match recv_loop a [] with
    | some r => (some r, 1)
    | none =>
      let deeper := send_and_receive rest
      (deeper.1, deeper.2 + 1)

/-- From `start_diagnostic_session`.  The channel oracle `chan` maps a written
command to the complete frame `send_and_receive` returns for it (`none` =
timeout after all retries).  Responses with byte 4 = 0x50 advance the state;
anything else logs a plain failure — `translate_error_code` is never called
here, hence `translated := none` on every path. -/
def start_diagnostic_session (st : DiagnosticState)
    (chan : List Nat → Option (List Nat)) : CallResult Bool :=
  if st = .DISCONNECTED then ⟨.ok false, st, [], none⟩
  else
    let command := [0x06, 0x7E, 0x00, 0x02, 0x10, 0x02]
    match chan command with
    | some response =>
      if 5 ≤ response.length ∧ response.getD 4 0 = 0x50 then
        ⟨.ok true, .SESSION_STARTED, [command], none⟩
      else ⟨.ok false, st, [command], none⟩
    | none => ⟨.ok false, st, [command], none⟩

/-- From `ecu_reset(reset_type)`: no state guard and no state update; on a
negative response `0x7F 0x11` the NRC byte `response[6]` is translated.
Indices past the response length read as 0 here; the theorems below only use
well-formed 7-byte negative frames, where this agrees with Python. -/
def ecu_reset (st : DiagnosticState) (chan : List Nat → Option (List Nat))
    (reset_type : Nat) : CallResult Bool :=
  let command := [0x07, 0x7E, 0x00, 0x03, 0x11, reset_type, 0x00]
  match chan command with
  | none => ⟨.ok false, st, [command], none⟩
  | some response =>
    if response.length < 5 then ⟨.ok false, st, [command], none⟩
    else if response.getD 4 0 = 0x51 ∧ response.getD 5 0 = reset_type then
      ⟨.ok true, st, [command], none⟩
    else if response.getD 4 0 = 0x7F ∧ response.getD 5 0 = 0x11 then
      ⟨.ok false, st, [command], some (response.getD 6 0)⟩
    else ⟨.ok false, st, [command], none⟩

/-- From `request_security_access(level)`.  The guard
`self.state < DiagnosticState.SESSION_STARTED` compares plain Enum members and
therefore raises `TypeError` before anything else happens (see `enum_lt`); the
rest of the body is translated faithfully below it but is unreachable. -/
def request_security_access (st : DiagnosticState)
    (chan : List Nat → Option (List Nat)) (level : Nat) : CallResult Bool :=
  match enum_lt st .SESSION_STARTED with
  | .error e => ⟨.error e, st, [], none⟩
  | .ok true => ⟨.error .runtimeError, st, [], none⟩
  | .ok false =>
    let command := [0x07, 0x7E, 0x00, 0x03, 0x27, level, 0x00]
    match chan command with
    | none => ⟨.ok false, st, [command], none⟩
    | some response =>
      if response.length < 7 then ⟨.ok false, st, [command], none⟩
      else if response.getD 4 0 = 0x67 ∧ response.getD 5 0 = level then
        let seed := (response.getD 6 0 <<< 8) ||| response.getD 7 0
        if seed = 0 then ⟨.ok true, .SECURITY_GRANTED, [command], none⟩
        else
          let key := calculate_key seed level
          let key_command := [0x09, 0x7E, 0x00, 0x05, 0x27, level + 1,
                              (key >>> 8) &&& 0xFF, key &&& 0xFF, 0x00]
          match chan key_command with
          | none => ⟨.ok false, .SECURITY_REQUESTED, [command, key_command], none⟩
          | some key_response =>
            if key_response.getD 4 0 = 0x67 ∧ key_response.getD 5 0 = level + 1 then
              ⟨.ok true, .SECURITY_GRANTED, [command, key_command], none⟩
            else if key_response.getD 4 0 = 0x7F ∧ key_response.getD 5 0 = 0x27 then
              ⟨.ok false, .SECURITY_REQUESTED, [command, key_command],
                some (key_response.getD 6 0)⟩
            else ⟨.ok false, .SECURITY_REQUESTED, [command, key_command], none⟩
      else if response.getD 4 0 = 0x7F ∧ response.getD 5 0 = 0x27 then
        ⟨.ok false, st, [command], some (response.getD 6 0)⟩
      else ⟨.ok false, st, [command], none⟩

/-- From `read_data_by_identifier(identifier)`.  The guard
`self.state < DiagnosticState.SECURITY_GRANTED` raises `TypeError` (see
`enum_lt`); the intended warn-and-return-None outcome and the body below it
are unreachable. -/
def read_data_by_identifier (st : DiagnosticState)
    (chan : List Nat → Option (List Nat)) (identifier : Nat) :
    CallResult (Option (List Nat)) :=
  match enum_lt st .SECURITY_GRANTED with
  | .error e => ⟨.error e, st, [], none⟩
  | .ok true => ⟨.ok none, st, [], none⟩
  | .ok false =>
    let command := [0x07, 0x7E, 0x00, 0x03, 0x22,
                    (identifier >>> 8) &&& 0xFF, identifier &&& 0xFF]
    match chan command with
    | none => ⟨.ok none, st, [command], none⟩
    | some response =>
      if response.length < 6 then ⟨.ok none, st, [command], none⟩
      else if response.getD 4 0 = 0x62 ∧ response.getD 5 0 = (identifier >>> 8) &&& 0xFF ∧
          response.getD 6 0 = identifier &&& 0xFF then
        ⟨.ok (some (response.drop 7)), st, [command], none⟩
      else if response.getD 4 0 = 0x7F ∧ response.getD 5 0 = 0x22 then
        ⟨.ok none, st, [command], some (response.getD 6 0)⟩
      else ⟨.ok none, st, [command], none⟩

/-- From `write_data_by_identifier(identifier, data)`; same failing guard. -/
def write_data_by_identifier (st : DiagnosticState)
    (chan : List Nat → Option (List Nat)) (identifier : Nat) (data : List Nat) :
    CallResult Bool :=
  match enum_lt st .SECURITY_GRANTED with
  | .error e => ⟨.error e, st, [], none⟩
  | .ok true => ⟨.ok false, st, [], none⟩
  | .ok false =>
    match write_data_command identifier data with
    | none => ⟨.error .valueError, st, [], none⟩
    | some command =>
      match chan command with
      | none => ⟨.ok false, st, [command], none⟩
      | some response =>
        if response.length < 6 then ⟨.ok false, st, [command], none⟩
        else if response.getD 4 0 = 0x6E ∧ response.getD 5 0 = (identifier >>> 8) &&& 0xFF ∧
            response.getD 6 0 = identifier &&& 0xFF then
          ⟨.ok true, st, [command], none⟩
        else if response.getD 4 0 = 0x7F ∧ response.getD 5 0 = 0x2E then
          ⟨.ok false, st, [command], some (response.getD 6 0)⟩
        else ⟨.ok false, st, [command], none⟩

/-- From `execute_routine(routine_id, params)`; same failing guard. -/
def execute_routine (st : DiagnosticState)
    (chan : List Nat → Option (List Nat)) (routine_id : Nat) (params : List Nat) :
    CallResult (Option (List Nat)) :=
  match enum_lt st .SECURITY_GRANTED with
  | .error e => ⟨.error e, st, [], none⟩
  | .ok true => ⟨.ok none, st, [], none⟩
  | .ok false =>
    match routine_command routine_id params with
    | none => ⟨.error .valueError, st, [], none⟩
    | some command =>
      match chan command with
      | none => ⟨.ok none, st, [command], none⟩
      | some response =>
        if response.length < 7 then ⟨.ok none, st, [command], none⟩
        else if response.getD 4 0 = 0x71 ∧ response.getD 5 0 = 0x01 then
          ⟨.ok (some (response.drop 8)), st, [command], none⟩
        else if response.getD 4 0 = 0x7F ∧ response.getD 5 0 = 0x31 then
          ⟨.ok none, st, [command], some (response.getD 6 0)⟩
        else ⟨.ok none, st, [command], none⟩

/-- From `read_vin()`; same failing guard.  The VIN is the printable-byte
filtering of `response[6:23]`, accepted only at length 17. -/
def read_vin (st : DiagnosticState)
    (chan : List Nat → Option (List Nat)) : CallResult (Option (List Nat)) :=
  match enum_lt st .SECURITY_GRANTED with
  | .error e => ⟨.error e, st, [], none⟩
  | .ok true => ⟨.ok none, st, [], none⟩
  | .ok false =>
    let command := [0x07, 0x7E, 0x00, 0x03, 0x22, 0x00, 0x90]
    match chan command with
    | none => ⟨.ok none, st, [command], none⟩
    | some response =>
      if response.length < 6 then ⟨.ok none, st, [command], none⟩
      else if response.getD 4 0 = 0x62 ∧ response.getD 5 0 = 0x90 then
        let vin := ((response.drop 6).take 17).filter (fun b => decide (32 ≤ b ∧ b ≤ 126))
        if vin.length = 17 then ⟨.ok (some vin), st, [command], none⟩
        else ⟨.ok none, st, [command], none⟩
      else if response.getD 4 0 = 0x7F ∧ response.getD 5 0 = 0x22 then
        ⟨.ok none, st, [command], some (response.getD 6 0)⟩
      else ⟨.ok none, st, [command], none⟩

/-- A 7-byte negative response frame (`byte4 = 0x7F`, NRC 0x33). -/
def neg_response : List Nat := [0x07, 0x7E, 0x00, 0x03, 0x7F, 0x10, 0x33]

/-- A channel that answers every command with `neg_response`. -/
def neg_chan : List Nat → Option (List Nat) := fun _ => some neg_response

end TechDownload

/-! ## import_serial.py and src/tech2_direct.py : chunk reassembly -/

namespace ImportSerial

/-- From `download_tech2_data`'s reassembly loop:
`chunk_data = buffer[2:] if len(buffer) > 2 else buffer`. -/
def strip_chunk (buffer : List Nat) : List Nat :=
  if 2 < buffer.length then buffer.drop 2 else buffer

/-- The reassembly loop: stripped chunks concatenated in order into
`combined_data`. -/
def combined_data (buffers : List (List Nat)) : List Nat :=
  buffers.foldl (fun acc buffer => acc ++ strip_chunk buffer) []

end ImportSerial

namespace Tech2Direct

/-- From `src/tech2_direct.py`: `data_buffers[k][2:168]` for the four full
chunks and `data_buffers[4][2:52]` for the last one, concatenated. -/
def combined_data (d0 d1 d2 d3 d4 : List Nat) : List Nat :=
  (d0.drop 2).take 166 ++ (d1.drop 2).take 166 ++ (d2.drop 2).take 166 ++
  (d3.drop 2).take 166 ++ (d4.drop 2).take 50

end Tech2Direct

/-! ## process_bin.py : seed extraction -/

namespace ProcessBin

/-- From `get_seed_only(data)`: if `data` is nonempty and at least 0x32 bytes
long, the big-endian word formed from `data[0x30:0x32]`; otherwise None. -/
def get_seed_only (data : List Nat) : Option Nat :=
  if data ≠ [] ∧ 0x32 ≤ data.length then
    let seed_bytes := (data.drop 0x30).take 2
    some ((seed_bytes.getD 0 0 <<< 8) ||| seed_bytes.getD 1 0)
  else none

end ProcessBin

/-! ## tech2_communication.py : send_security_key -/

namespace TechComm

/-- From `Tech2Communicator.read_response(expected_length)`: the poll loop
accumulates arriving bytes in pieces of at most `min(32, remaining)` until it
holds `expected_length` bytes or the deadline passes.  `avail` is the byte
stream the device delivers before the deadline, so the loop returns its first
`expected_length` bytes (fewer if the stream runs dry: the timeout case). -/
def read_response (avail : List Nat) (expected : Nat) : List Nat :=
  avail.take expected

/-- From `Tech2Communicator.send_security_key(key)`: sends
`[0x8B, 0x56, 0x02, 0x00, keyHi, keyLo]` and accepts only a 4-byte response
whose byte 1 is 0x00.  `writeOk` is the result of `send_command` (true iff the
port is open and `os.write` wrote the whole command).  Returns the outcome and
the command that the function constructs. -/
def send_security_key (key : Nat) (writeOk : Bool) (avail : List Nat) :
    Bool × List Nat :=
  let key_cmd := [0x8B, 0x56, 0x02, 0x00, (key >>> 8) &&& 0xFF, key &&& 0xFF]
  if writeOk = false then (false, key_cmd)
  else
    let response := read_response avail 4
    if response.length ≠ 4 then (false, key_cmd)
    else if response.getD 1 0 ≠ 0x00 then (false, key_cmd)
    else (true, key_cmd)

end TechComm

/-! ## Theorems -/

/-- Helper: xor of two 16-bit values is 16-bit. -/
theorem xor_le_mask {a b : Nat} (ha : a ≤ 0xFFFF) (hb : b ≤ 0xFFFF) :
    a ^^^ b ≤ 0xFFFF := by
  have h : a ^^^ b < 2 ^ 16 := Nat.xor_lt_two_pow (by omega) (by omega)
  omega

/-- Helper: `subtract` always lands in `[0, 0xFFFF]`. -/
theorem subtract_le (val value : Nat) : Trionic8.subtract val value ≤ 0xFFFF := by
  unfold Trionic8.subtract
  have h1 : (0 : Int) ≤ ((val : Int) - (value : Int)).emod 65536 :=
    Int.emod_nonneg _ (by norm_num)
  have h2 : ((val : Int) - (value : Int)).emod 65536 < 65536 :=
    Int.emod_lt_of_pos _ (by norm_num)
  omega

/-- Helper: `calculate_key` always lands in `[0, 0xFFFF]`, for every level. -/
theorem calculate_key_le (seed level : Nat) :
    TechDownload.calculate_key seed level ≤ 0xFFFF := by
  unfold TechDownload.calculate_key
  by_cases hfd : level = 0xFD
  · simp only [hfd, if_true]
    exact xor_le_mask Nat.and_le_right (by norm_num)
  · by_cases hfb : level = 0xFB
    · simp only [hfd, hfb, if_false, if_true]
      exact xor_le_mask Nat.and_le_right (by norm_num)
    · simp only [hfd, hfb, if_false]
      exact Nat.and_le_right

/-- Claim C1: for every seed in [0, 0xFFFF], the level-aware `calculate_key`
returns the claimed base transform unchanged at level 0x01, the claimed
xor/add/xor pipeline at level 0xFB, and the claimed divide-by-3 pipeline at
level 0xFD, all with unsigned arithmetic mod 2^16. -/
theorem claim1_level_aware_key_derivation (seed : Nat) (h : seed ≤ 0xFFFF) :
    TechDownload.calculate_key seed 0x01 = claim_base seed ∧
    TechDownload.calculate_key seed 0xFB = claim_key_fb seed ∧
    TechDownload.calculate_key seed 0xFD = claim_key_fd seed :=
  ⟨rfl, rfl, rfl⟩

/-- Witness for C1 at the concrete seed 0x1234. -/
theorem claim1_witness :
    TechDownload.calculate_key 0x1234 0x01 = claim_base 0x1234 ∧
    TechDownload.calculate_key 0x1234 0xFB = claim_key_fb 0x1234 ∧
    TechDownload.calculate_key 0x1234 0xFD = claim_key_fd 0x1234 :=
  claim1_level_aware_key_derivation 0x1234 (by decide)

/-- Claim C2 evaluated on the code: `TRIONIC8_Algorithm.compute` disagrees with
three of the four acceptance fixtures recorded in `test_with_known_values`
(`(0x3B86, 0x3BAF)`, `(0x1234, 0x8A83)`, `(0xABCD, 0x2323)`); only
`(0xFFFF, 0xB987)` matches.  The code contradicts its own test fixtures. -/
theorem claim2_fixture_evaluation :
    Trionic8.compute 0x3B86 = some 0xEB64 ∧ (0xEB64 : Nat) ≠ 0x3BAF ∧
    Trionic8.compute 0x1234 = some 0x5A19 ∧ (0x5A19 : Nat) ≠ 0x8A83 ∧
    Trionic8.compute 0xABCD = some 0x26E6 ∧ (0x26E6 : Nat) ≠ 0x2323 ∧
    Trionic8.compute 0xFFFF = some 0xB987 := by
  decide

/-- Claim C5: `compute` rejects (ValueError, modelled `none`) exactly the
integer seeds outside [0, 0xFFFF]; on every in-range seed it terminates with a
value in [0, 0xFFFF]; and the level-aware `calculate_key` likewise returns a
value in [0, 0xFFFF] for every in-range seed and every level (in particular
the three levels 0x01, 0xFB, 0xFD).  Determinism and termination are inherent
to the total functional embedding. -/
theorem claim5_total_and_in_range :
    (∀ s : Int, Trionic8.compute s = none ↔ (s < 0 ∨ 0xFFFF < s)) ∧
    (∀ s : Int, 0 ≤ s → s ≤ 0xFFFF →
      ∃ k, Trionic8.compute s = some k ∧ k ≤ 0xFFFF) ∧
    (∀ seed level : Nat, seed ≤ 0xFFFF →
      TechDownload.calculate_key seed level ≤ 0xFFFF) := by
  refine ⟨?_, ?_, ?_⟩
  · intro s
    unfold Trionic8.compute
    by_cases h : s < 0 ∨ 0xFFFF < s
    · simp [h]
    · simp [h]
  · intro s h0 h1
    have h : ¬ (s < 0 ∨ (0xFFFF : Int) < s) := by omega
    simp only [Trionic8.compute, if_neg h]
    exact ⟨_, rfl, subtract_le _ _⟩
  · intro seed level _
    exact calculate_key_le seed level

/-- Witness for C5 at concrete inputs: seed 0x1234 in range, and
`calculate_key` at seed 3, level 0xFD. -/
theorem claim5_witness :
    (Trionic8.compute 0x10000 = none ↔ ((0x10000 : Int) < 0 ∨ 0xFFFF < (0x10000 : Int))) ∧
    (∃ k, Trionic8.compute 0x1234 = some k ∧ k ≤ 0xFFFF) ∧
    TechDownload.calculate_key 3 0xFD ≤ 0xFFFF :=
  ⟨claim5_total_and_in_range.1 0x10000,
   claim5_total_and_in_range.2.1 0x1234 (by decide) (by decide),
   claim5_total_and_in_range.2.2 3 0xFD (by decide)⟩

/-- Helper: the command built by `write_data_by_identifier` is exactly the
generic `Encode` of the service payload `[0x2E, idHi, idLo] + data`. -/
theorem write_data_command_eq_encode (i : Nat) (data : List Nat) :
    TechDownload.write_data_command i data
      = FrameCodec.Encode ([0x2E, (i >>> 8) &&& 0xFF, i &&& 0xFF] ++ data) := by
  have hhi : (i >>> 8) &&& 0xFF ≤ 0xFF := Nat.and_le_right
  have hlo : i &&& 0xFF ≤ 0xFF := Nat.and_le_right
  have hlen : ([0x2E, (i >>> 8) &&& 0xFF, i &&& 0xFF] ++ data).length = 3 + data.length := by
    simp only [List.length_append, List.length_cons, List.length_nil]
  have hmem : (∀ b ∈ [0x2E, (i >>> 8) &&& 0xFF, i &&& 0xFF] ++ data, b ≤ 0xFF)
      ↔ (∀ b ∈ data, b ≤ 0xFF) := by
    constructor
    · intro hall b hb
      exact hall b (List.mem_append_right _ hb)
    · intro hall b hb
      rcases List.mem_append.mp hb with hb | hb
      · rcases List.mem_cons.mp hb with rfl | hb
        · norm_num
        · rcases List.mem_cons.mp hb with rfl | hb
          · exact hhi
          · rcases List.mem_cons.mp hb with rfl | hb
            · exact hlo
            · exact absurd hb (List.not_mem_nil b)
      · exact hall b hb
  simp only [TechDownload.write_data_command, FrameCodec.Encode, hlen, hmem]
  rfl

/-- Claim C6 counterexample: for the 252-byte payload of zeros the computed
length byte would be 256, which does not fit in a byte — the source's
`bytearray([data_length + 4, ...])` raises ValueError and no frame is encoded,
so no frame with first byte `4 + len(payload)` exists for this payload. -/
theorem claim6_counterexample :
    FrameCodec.Encode (List.replicate 252 0) = none ∧
    ¬ ∃ f, FrameCodec.Encode (List.replicate 252 0) = some f ∧
        f.getD 0 0 = 4 + (List.replicate 252 (0 : Nat)).length ∧
        f.length = 4 + (List.replicate 252 (0 : Nat)).length ∧
        FrameCodec.IsComplete f := by
  have h : FrameCodec.Encode (List.replicate 252 0) = none := by
    unfold FrameCodec.Encode
    rw [if_neg]
    rintro ⟨h1, -⟩
    rw [List.length_replicate] at h1
    omega
  exact ⟨h, by rintro ⟨f, hf, -⟩; rw [h] at hf; cases hf⟩

/-- Claim C6 as amended: for every service payload of byte values whose length
is at most 251 (so that `4 + len(payload)` fits in the length byte), the
encoded frame exists, its first byte equals `4 + len(payload)`, that value is
the total frame length, and therefore `IsComplete(Encode(payload))` holds. -/
theorem claim6_encode_complete (payload : List Nat)
    (hbytes : ∀ b ∈ payload, b ≤ 0xFF) (hlen : payload.length ≤ 251) :
    ∃ f, FrameCodec.Encode payload = some f ∧
      f.getD 0 0 = 4 + payload.length ∧
      f.length = 4 + payload.length ∧
      FrameCodec.IsComplete f := by
  have hc : payload.length + 4 ≤ 0xFF ∧ (∀ b ∈ payload, b ≤ 0xFF) := ⟨by omega, hbytes⟩
  refine ⟨(payload.length + 4) :: 0x7E :: 0x00 :: payload.length :: payload,
    by unfold FrameCodec.Encode; rw [if_pos hc], ?_, ?_, ?_⟩
  · simp only [List.getD_eq_getElem?_getD, List.getElem?_cons_zero, Option.getD_some]
    omega
  · simp only [List.length_cons]
    omega
  · simp only [FrameCodec.IsComplete, List.getD_eq_getElem?_getD,
      List.getElem?_cons_zero, Option.getD_some, List.length_cons]
    omega

/-- Witness for C6 at the ReadDataByIdentifier(0x0090) payload. -/
theorem claim6_witness :
    ∃ f, FrameCodec.Encode [0x22, 0x00, 0x90] = some f ∧
      f.getD 0 0 = 4 + ([0x22, 0x00, 0x90] : List Nat).length ∧
      f.length = 4 + ([0x22, 0x00, 0x90] : List Nat).length ∧
      FrameCodec.IsComplete f :=
  claim6_encode_complete [0x22, 0x00, 0x90] (by decide) (by decide)

set_option maxRecDepth 20000 in
/-- Claim C4 counterexample: feeding the five declared-size chunks
(169, 169, 169, 169, 53 bytes) to `download_tech2_data`'s reassembly yields a
719-byte image (`buffer[2:]` leaves 167 payload bytes per full chunk and 51
for the last), not the claimed 714 bytes. -/
theorem claim4_counterexample :
    (ImportSerial.combined_data [List.replicate 169 0, List.replicate 169 0,
      List.replicate 169 0, List.replicate 169 0, List.replicate 53 0]).length = 719 ∧
    (719 : Nat) ≠ 714 := by
  constructor
  · simp [ImportSerial.combined_data, ImportSerial.strip_chunk, List.foldl]
  · decide

/-- Claim C4 as amended: for five chunks of the declared raw sizes
169, 169, 169, 169 and 53 bytes, the `tech2_direct` variant (which slices
`[2:168]` / `[2:52]`, i.e. exactly 166 resp. 50 payload bytes per chunk)
reassembles exactly 714 bytes, while the `import_serial` variant (which strips
only the 2-byte header) reassembles 719 bytes. -/
theorem claim4_reassembly_lengths (d0 d1 d2 d3 d4 : List Nat)
    (h0 : d0.length = 169) (h1 : d1.length = 169) (h2 : d2.length = 169)
    (h3 : d3.length = 169) (h4 : d4.length = 53) :
    (Tech2Direct.combined_data d0 d1 d2 d3 d4).length = 714 ∧
    (ImportSerial.combined_data [d0, d1, d2, d3, d4]).length = 719 := by
  constructor
  · simp [Tech2Direct.combined_data, h0, h1, h2, h3, h4]
  · simp [ImportSerial.combined_data, ImportSerial.strip_chunk, List.foldl,
      h0, h1, h2, h3, h4]

/-- Witness for C4 at concrete all-zero chunks of the declared sizes. -/
theorem claim4_witness :
    (Tech2Direct.combined_data (List.replicate 169 0) (List.replicate 169 0)
      (List.replicate 169 0) (List.replicate 169 0) (List.replicate 53 0)).length = 714 ∧
    (ImportSerial.combined_data [List.replicate 169 0, List.replicate 169 0,
      List.replicate 169 0, List.replicate 169 0, List.replicate 53 0]).length = 719 :=
  claim4_reassembly_lengths _ _ _ _ _ (List.length_replicate 169 0)
    (List.length_replicate 169 0) (List.length_replicate 169 0)
    (List.length_replicate 169 0) (List.length_replicate 53 0)

/-- Claim C9: `get_seed_only` returns None on every image shorter than 0x32
bytes (without raising), and on every image of length at least 0x32 it returns
the big-endian 16-bit word formed from the bytes at offsets 0x30 and 0x31. -/
theorem claim9_extract_seed :
    (∀ data : List Nat, data.length < 0x32 → ProcessBin.get_seed_only data = none) ∧
    (∀ data : List Nat, 0x32 ≤ data.length →
      ProcessBin.get_seed_only data
        = some ((data.getD 0x30 0 <<< 8) ||| data.getD 0x31 0)) := by
  constructor
  · intro data h
    unfold ProcessBin.get_seed_only
    rw [if_neg]
    rintro ⟨-, hlen⟩
    omega
  · intro data h
    have hne : data ≠ [] := by
      intro e
      rw [e] at h
      simp at h
    unfold ProcessBin.get_seed_only
    rw [if_pos ⟨hne, h⟩]
    show some ((((data.drop 0x30).take 2).getD 0 0) <<< 8 |||
      ((data.drop 0x30).take 2).getD 1 0) = _
    have e0 : ((data.drop 0x30).take 2).getD 0 0 = data.getD 0x30 0 := by
      rw [List.getD_eq_getElem?_getD, List.getElem?_take_of_lt (by omega),
        List.getElem?_drop, List.getD_eq_getElem?_getD]
    have e1 : ((data.drop 0x30).take 2).getD 1 0 = data.getD 0x31 0 := by
      rw [List.getD_eq_getElem?_getD, List.getElem?_take_of_lt (by omega),
        List.getElem?_drop, List.getD_eq_getElem?_getD]
    rw [e0, e1]

/-- Witness for C9: a 49-byte image yields None; a 0x32-byte image with bytes
0xAB 0xCD at offsets 0x30/0x31 yields the seed 0xABCD. -/
theorem claim9_witness :
    ProcessBin.get_seed_only (List.replicate 49 0) = none ∧
    ProcessBin.get_seed_only (List.replicate 0x30 0 ++ [0xAB, 0xCD])
      = some (((List.replicate 0x30 0 ++ [0xAB, 0xCD]).getD 0x30 0 <<< 8) |||
          (List.replicate 0x30 0 ++ [0xAB, 0xCD]).getD 0x31 0) :=
  ⟨claim9_extract_seed.1 (List.replicate 49 0) (by simp),
   claim9_extract_seed.2 (List.replicate 0x30 0 ++ [0xAB, 0xCD]) (by simp)⟩

/-- Claim C10: `send_security_key(key)` constructs exactly the 6-byte command
`[0x8B, 0x56, 0x02, 0x00, keyHi, keyLo]` (big-endian key split), and returns
True if and only if the command was fully written, exactly 4 response bytes
arrived before the deadline, and the response byte at index 1 equals 0x00;
a shorter response or a nonzero status byte yields False. -/
theorem claim10_send_security_key (key : Nat) (writeOk : Bool) (avail : List Nat) :
    (TechComm.send_security_key key writeOk avail).2
      = [0x8B, 0x56, 0x02, 0x00, (key >>> 8) &&& 0xFF, key &&& 0xFF] ∧
    ((TechComm.send_security_key key writeOk avail).1 = true ↔
      (writeOk = true ∧ (avail.take 4).length = 4 ∧ (avail.take 4).getD 1 0 = 0)) := by
  simp only [TechComm.send_security_key, TechComm.read_response]
  constructor
  · split_ifs <;> rfl
  · split_ifs with hW hA hB <;> simp_all

/-- Claim C8: when no polling window ever accumulates a complete frame, the
retry loop of `send_and_receive` fails with the no-response outcome after
exactly the configured number of attempts, having written the command to the
channel exactly that many times. -/
theorem claim8_retry_exhaustion (attempts : List (List (List Nat)))
    (h : ∀ a ∈ attempts, TechDownload.recv_loop a [] = none) :
    TechDownload.send_and_receive attempts = (none, attempts.length) := by
  induction attempts with
  | nil => rfl
  | cons a rest ih =>
    have ha : TechDownload.recv_loop a [] = none := h a (List.mem_cons_self a rest)
    have hr := ih (fun x hx => h x (List.mem_cons_of_mem a hx))
    simp [TechDownload.send_and_receive, ha, hr]

/-- Witness for C8 at the default retry budget of 3: a channel that delivers
nothing in any window causes 3 writes and a `none` result. -/
theorem claim8_witness :
    TechDownload.send_and_receive [[], [], []] = (none, 3) :=
  claim8_retry_exhaustion [[], [], []] (by decide)

/-- Claim C3 evaluated on the code: invoked from `CONNECTED` or
`SESSION_STARTED`, each security-guarded service raises `TypeError` at the
guard `self.state < DiagnosticState.SECURITY_GRANTED` (plain `Enum` members
are unordered in Python 3) — not the intended warn-and-return StateError
outcome — and performs no channel I/O (`sent = []`). -/
theorem claim3_guard_type_error (st : TechDownload.DiagnosticState)
    (h : st = .CONNECTED ∨ st = .SESSION_STARTED)
    (chan : List Nat → Option (List Nat)) (identifier routine_id : Nat)
    (data params : List Nat) :
    TechDownload.read_data_by_identifier st chan identifier
      = ⟨.error .typeError, st, [], none⟩ ∧
    TechDownload.write_data_by_identifier st chan identifier data
      = ⟨.error .typeError, st, [], none⟩ ∧
    TechDownload.execute_routine st chan routine_id params
      = ⟨.error .typeError, st, [], none⟩ ∧
    TechDownload.read_vin st chan
      = ⟨.error .typeError, st, [], none⟩ :=
  ⟨rfl, rfl, rfl, rfl⟩

/-- Witness for C3 at `CONNECTED` with a silent channel and identifier 0x90. -/
theorem claim3_witness :
    TechDownload.read_data_by_identifier .CONNECTED (fun _ => none) 0x90
      = ⟨.error .typeError, .CONNECTED, [], none⟩ ∧
    TechDownload.write_data_by_identifier .CONNECTED (fun _ => none) 0x90 []
      = ⟨.error .typeError, .CONNECTED, [], none⟩ ∧
    TechDownload.execute_routine .CONNECTED (fun _ => none) 0x0203 []
      = ⟨.error .typeError, .CONNECTED, [], none⟩ ∧
    TechDownload.read_vin .CONNECTED (fun _ => none)
      = ⟨.error .typeError, .CONNECTED, [], none⟩ :=
  claim3_guard_type_error .CONNECTED (Or.inl rfl) (fun _ => none) 0x90 0x0203 [] []

/-- Claim C7 counterexample: with the session started and a channel answering
the StartSession command with the negative frame
`[0x07, 0x7E, 0x00, 0x03, 0x7F, 0x10, 0x33]` (byte 4 = 0x7F), the state field
is indeed left unchanged, but the call surfaces no translated error code
(`start_diagnostic_session` returns a bare False and never invokes
`translate_error_code`), contradicting the claim as stated. -/
theorem claim7_counterexample :
    (TechDownload.neg_chan [0x06, 0x7E, 0x00, 0x02, 0x10, 0x02]
        = some TechDownload.neg_response ∧
      TechDownload.neg_response.getD 4 0 = 0x7F) ∧
    (TechDownload.start_diagnostic_session .CONNECTED TechDownload.neg_chan).state
      = .CONNECTED ∧
    (TechDownload.start_diagnostic_session .CONNECTED TechDownload.neg_chan).result
      = .ok false ∧
    ¬ ((TechDownload.start_diagnostic_session .CONNECTED
        TechDownload.neg_chan).translated).isSome = true := by
  exact ⟨⟨rfl, by decide⟩, rfl, rfl, by decide⟩

/-- Claim C7 as amended: a negative response (byte 4 = 0x7F) to StartSession
leaves the state field unchanged and the call fails — but without a translated
error code; and `request_security_access` never reaches its response handling
at all (for every state and channel it raises `TypeError` at its state guard,
leaving the state unchanged and performing no channel I/O). -/
theorem claim7_negative_response_state :
    (∀ (st : TechDownload.DiagnosticState) (chan : List Nat → Option (List Nat))
        (response : List Nat),
      st ≠ .DISCONNECTED →
      chan [0x06, 0x7E, 0x00, 0x02, 0x10, 0x02] = some response →
      response.getD 4 0 = 0x7F →
      (TechDownload.start_diagnostic_session st chan).state = st ∧
      (TechDownload.start_diagnostic_session st chan).result = .ok false ∧
      (TechDownload.start_diagnostic_session st chan).translated = none) ∧
    (∀ (st : TechDownload.DiagnosticState) (chan : List Nat → Option (List Nat))
        (level : Nat),
      (TechDownload.request_security_access st chan level).state = st ∧
      (TechDownload.request_security_access st chan level).result = .error .typeError ∧
      (TechDownload.request_security_access st chan level).sent = []) := by
  constructor
  · intro st chan response hst hchan hneg
    have hcond : ¬ (5 ≤ response.length ∧ response.getD 4 0 = 0x50) := by
      rintro ⟨-, hc⟩
      rw [hneg] at hc
      exact absurd hc (by decide)
    simp only [TechDownload.start_diagnostic_session, if_neg hst, hchan]
    rw [if_neg hcond]
    exact ⟨rfl, rfl, rfl⟩
  · intro st chan level
    exact ⟨rfl, rfl, rfl⟩

/-- Witness for C7 at the concrete negative response channel. -/
theorem claim7_witness :
    ((TechDownload.start_diagnostic_session .SESSION_STARTED TechDownload.neg_chan).state
        = .SESSION_STARTED ∧
      (TechDownload.start_diagnostic_session .SESSION_STARTED TechDownload.neg_chan).result
        = .ok false ∧
      (TechDownload.start_diagnostic_session .SESSION_STARTED
        TechDownload.neg_chan).translated = none) ∧
    ((TechDownload.request_security_access .SESSION_STARTED TechDownload.neg_chan 0xFD).state
        = .SESSION_STARTED ∧
      (TechDownload.request_security_access .SESSION_STARTED
        TechDownload.neg_chan 0xFD).result = .error .typeError ∧
      (TechDownload.request_security_access .SESSION_STARTED
        TechDownload.neg_chan 0xFD).sent = []) :=
  ⟨claim7_negative_response_state.1 .SESSION_STARTED TechDownload.neg_chan
      TechDownload.neg_response (by decide) rfl (by decide),
    claim7_negative_response_state.2 .SESSION_STARTED TechDownload.neg_chan 0xFD⟩
